import Mathlib

/-!
Shallow embedding of `src/commands/start.js` of the haul repository: the
`start` command that launches a webpack-based development server for a
React Native project.  Pure decision logic (platform filtering, command
string construction, CLI option parsing and defaulting, callback logging
decisions) is translated directly; the external collaborators (webpack,
the HTTP server, the logger, the shell) are represented as effects in an
ordered trace, and the filesystem/environment as an explicit `Env`.
-/

namespace Haul

/-- A per-platform build configuration.  The spec treats it as opaque
except for its `entry` field, which the startup summary reports. -/
structure Cfg where
  entry : String
deriving DecidableEq, Repr

/-- Launch options, as resolved by the CLI layer (`opts` in `start.js`).
`port` is a number in JS; port values are naturals. -/
structure Opts where
  host : String
  port : Nat
  dev : Bool
  minify : Bool
  platform : String
deriving DecidableEq, Repr

/-- The `config` variable of `start.js` after the platform filter: either
the full configuration array returned by `makeReactNativeConfig`, or the
single entry selected by positional lookup. -/
inductive ConfigSel where
  | full (cs : List Cfg)
  | one (c : Cfg)
deriving DecidableEq, Repr

/-- The ambient world the launcher reads: current working directory,
whether `webpack.haul.js` exists there, the output of
`makeReactNativeConfig` (a configuration list and a platform list),
the `ANDROID_HOME` environment variable and whether the shelled-out
`adb` command fails.

Modelled from the spec: `makeReactNativeConfig` (in `src/utils`, not
among the sources) is opaque; the spec states its contract is to
return N build configurations and N platform identifiers,
order-aligned, which the `aligned` field records. -/
structure Env where
  cwd : String
  configExists : Bool
  configs : List Cfg
  platforms : List String
  aligned : configs.length = platforms.length
  androidHome : Option String
  execFails : Bool

/-- Minimal model of `path.join(directory, file)` for the one call site,
which joins a directory and a plain file name. -/
def pathJoin (dir file : String) : String :=
  dir ++ "/" ++ file

/-- Minimal model of `path.basename`: the final segment of a
slash-separated path. -/
def baseName (p : String) : String :=
  (p.splitOn "/").getLastD p

/-- Modelled from the spec: `messages.webpackConfigNotFound` lives in
`src/messages`, which is not among the sources; the spec only requires
that the failure carry a human-readable message referencing the missing
location.  The message embeds the resolved configuration path. -/
def webpackConfigNotFound (directory : String) : String :=
  "Couldn't find configuration file " ++ pathJoin directory "webpack.haul.js"

/-- The `MessageError` kind thrown for user-facing failures. -/
structure MessageError where
  message : String
deriving DecidableEq, Repr

/-- Observable steps the launcher performs, in order.  Logging effects
carry the structured data handed to the corresponding `messages.*`
builder rather than its formatted text. -/
inductive Effect where
  | clearScreen
  | compile (cfg : ConfigSel)
  | serverCreated
  | execCmd (cmd : String)
  | infoCommandSuccess (command : String)
  | warnCommandFailed (command : String)
  | listen (port : Nat) (host : String)
  | summary (entries : List String) (host : String) (port : Nat)
deriving DecidableEq, Repr

/-- Platform filtering of `start.js` lines 47-49: when the requested
platform is not `"all"` and occurs in the platform list, replace the
configuration array by the single entry at the platform's index
(`config = config[platforms.indexOf(opts.platform)]`); otherwise keep
the array untouched. -/
def selectConfig (platform : String) (configs : List Cfg)
    (platforms : List String) (hlen : configs.length = platforms.length) :
    ConfigSel :=
  if h : platform ≠ "all" ∧ platform ∈ platforms then
    ConfigSel.one (configs.get ⟨platforms.indexOf platform, by
      rw [hlen]; exact List.indexOf_lt_length.mpr h.2⟩)
  else
    ConfigSel.full configs

/-- Resolution of the adb binary: `$ANDROID_HOME/platform-tools/adb`
when the environment variable is set, the bare `adb` otherwise. -/
def adbBinary (androidHome : Option String) : String :=
  match androidHome with
  | some home => home ++ "/platform-tools/adb"
  | none => "adb"

/-- Argument string of the device port-forward command for a port. -/
def adbArgs (port : Nat) : String :=
  "reverse tcp:" ++ toString port ++ " tcp:" ++ toString port

/-- The Android-only block of `start.js`: run `adb reverse`, logging an
info message on success and only a warning on failure. -/
def androidEffects (opts : Opts) (env : Env) : List Effect :=
  if opts.platform = "android" then
    let args := adbArgs opts.port
    let adb := adbBinary env.androidHome
    Effect.execCmd (adb ++ " " ++ args) ::
      (if env.execFails then
        [Effect.warnCommandFailed (baseName adb ++ " " ++ args)]
      else
        [Effect.infoCommandSuccess (baseName adb ++ " " ++ args)])
  else []

/-- Entry points reported by the listen callback:
`Array.isArray(config) ? config.map(c => c.entry) : [config.entry]`. -/
def summaryEntries : ConfigSel → List String
  | ConfigSel.full cs => cs.map Cfg.entry
  | ConfigSel.one c => [c.entry]

/-- The ordered effect trace of a successful launch: clear the screen,
instantiate the compiler on the selected configuration, create the
server, run the Android block, start listening and, once the listen
callback fires, log the startup summary. -/
def successTrace (opts : Opts) (env : Env) : List Effect :=
  let sel := selectConfig opts.platform env.configs env.platforms env.aligned
  [Effect.clearScreen, Effect.compile sel, Effect.serverCreated]
    ++ androidEffects opts env
    ++ [Effect.listen opts.port opts.host,
        Effect.summary (summaryEntries sel) opts.host opts.port]

/-- The `start` function: throw a `MessageError` when `webpack.haul.js`
is absent from the working directory, otherwise perform the launch and
yield its effect trace. -/
def startTrace (opts : Opts) (env : Env) : Except MessageError (List Effect) :=
  if env.configExists = false then
    Except.error ⟨webpackConfigNotFound env.cwd⟩
  else
    Except.ok (successTrace opts env)

/-- Stats object delivered to the build-completion callback; opaque
except for its error flag (`stats.hasErrors()`). -/
structure Stats where
  hasErrorsFlag : Bool
deriving DecidableEq, Repr

/-- Effects performed by the two server callbacks. -/
inductive CbEffect where
  | clearScreen
  | warnBundleBuilding (didHaveIssues : Bool)
  | infoBundleBuilding (didHaveIssues : Bool)
  | errorBundleFailed
  | doneBundleBuilt (stats : Stats) (platform : String)
deriving DecidableEq, Repr

/-- First server callback: clear the screen, then log the building
message at warning level when the previous build had issues, at info
level otherwise. -/
def onBuildStart (didHaveIssues : Bool) : List CbEffect :=
  CbEffect.clearScreen ::
    (if didHaveIssues then [CbEffect.warnBundleBuilding didHaveIssues]
     else [CbEffect.infoBundleBuilding didHaveIssues])

/-- Second server callback: clear the screen, then log an error message
when the stats report errors, otherwise a success message carrying the
stats and the requested platform. -/
def onBuildComplete (platform : String) (stats : Stats) : List CbEffect :=
  CbEffect.clearScreen ::
    (if stats.hasErrorsFlag then [CbEffect.errorBundleFailed]
     else [CbEffect.doneBundleBuilt stats platform])

/-- Parser of the `--dev` and `--minify` options:
`(val) => val !== 'false'`. -/
def parseBoolOption (val : String) : Bool :=
  val != "false"

/-- JS `String` applied to a boolean. -/
def jsStringOfBool (b : Bool) : String :=
  if b then "true" else "false"

/-- Default of `--minify` when not supplied:
`({ dev }) => String(!dev)`. -/
def minifyDefault (dev : Bool) : String :=
  jsStringOfBool (!dev)

/-- Sample iOS configuration used by concrete witnesses. -/
def cfgIos : Cfg := ⟨"index.ios.js"⟩

/-- Sample Android configuration used by concrete witnesses. -/
def cfgAndroid : Cfg := ⟨"index.android.js"⟩

/-- Sample environment: config file present, two aligned platforms,
no ANDROID_HOME, adb succeeds. -/
def envTwo : Env :=
  ⟨"/home/project", true, [cfgIos, cfgAndroid], ["ios", "android"], rfl,
    none, false⟩

/-- Same as `envTwo` but the adb command fails. -/
def envTwoFails : Env :=
  ⟨"/home/project", true, [cfgIos, cfgAndroid], ["ios", "android"], rfl,
    none, true⟩

/-- Same as `envTwo` but `webpack.haul.js` is missing. -/
def envMissing : Env :=
  ⟨"/home/project", false, [cfgIos, cfgAndroid], ["ios", "android"], rfl,
    none, false⟩

/-- Sample options requesting the ios platform. -/
def optsIos : Opts := ⟨"127.0.0.1", 8081, true, false, "ios"⟩

/-- Sample options requesting all platforms. -/
def optsAll : Opts := ⟨"127.0.0.1", 8081, true, false, "all"⟩

/-- Sample options requesting the android platform. -/
def optsAndroid : Opts := ⟨"127.0.0.1", 8081, true, false, "android"⟩

/-! Helper lemmas shared by the claim theorems. -/

theorem startTrace_ok_of_exists {opts : Opts} {env : Env}
    (hex : env.configExists = true) :
    startTrace opts env = Except.ok (successTrace opts env) := by
  simp [startTrace, hex]

theorem selectConfig_pos {platform : String} {configs : List Cfg}
    {platforms : List String} (hlen : configs.length = platforms.length)
    (hall : platform ≠ "all") (hmem : platform ∈ platforms)
    (hidx : platforms.indexOf platform < configs.length) :
    selectConfig platform configs platforms hlen =
      ConfigSel.one (configs.get ⟨platforms.indexOf platform, hidx⟩) := by
  simp only [selectConfig]
  rw [dif_pos ⟨hall, hmem⟩]

theorem selectConfig_neg {platform : String} {configs : List Cfg}
    {platforms : List String} (hlen : configs.length = platforms.length)
    (h : ¬(platform ≠ "all" ∧ platform ∈ platforms)) :
    selectConfig platform configs platforms hlen = ConfigSel.full configs := by
  simp only [selectConfig]
  rw [dif_neg h]

theorem compile_not_mem_androidEffects (opts : Opts) (env : Env)
    (cfg : ConfigSel) : Effect.compile cfg ∉ androidEffects opts env := by
  unfold androidEffects
  split_ifs <;> simp

theorem info_not_mem_androidEffects (opts : Opts) (env : Env)
    (hf : env.execFails = true) (cmd : String) :
    Effect.infoCommandSuccess cmd ∉ androidEffects opts env := by
  unfold androidEffects
  split_ifs <;> simp_all

/-- Claim C1: for a requested platform other than "all" that occurs in the
resolved platform list, the configuration handed to the compiler factory
is exactly the single configuration at the platform's index in the
platform list, never the full configuration list. -/
theorem platform_filter_selects_single (opts : Opts) (env : Env)
    (hex : env.configExists = true)
    (hall : opts.platform ≠ "all")
    (hmem : opts.platform ∈ env.platforms) :
    ∃ trace c,
      startTrace opts env = Except.ok trace ∧
      env.configs[env.platforms.indexOf opts.platform]? = some c ∧
      Effect.compile (ConfigSel.one c) ∈ trace ∧
      ∀ cs, Effect.compile (ConfigSel.full cs) ∉ trace := by
  have hidx : env.platforms.indexOf opts.platform < env.configs.length := by
    rw [env.aligned]
    exact List.indexOf_lt_length.mpr hmem
  have hsel := selectConfig_pos env.aligned hall hmem hidx
  refine ⟨successTrace opts env,
    env.configs.get ⟨env.platforms.indexOf opts.platform, hidx⟩,
    startTrace_ok_of_exists hex, ?_, ?_, ?_⟩
  · rw [List.getElem?_eq_getElem hidx, List.get_eq_getElem]
  · simp [successTrace, hsel]
  · intro cs hc
    simp [successTrace, hsel] at hc
    exact compile_not_mem_androidEffects opts env (ConfigSel.full cs) hc

/-- Claim C1 witness: with options requesting ios against a two-platform
environment, the compiler gets exactly the ios configuration. -/
theorem platform_filter_selects_single_witness :
    ∃ trace c,
      startTrace optsIos envTwo = Except.ok trace ∧
      envTwo.configs[envTwo.platforms.indexOf optsIos.platform]? = some c ∧
      Effect.compile (ConfigSel.one c) ∈ trace ∧
      ∀ cs, Effect.compile (ConfigSel.full cs) ∉ trace :=
  platform_filter_selects_single optsIos envTwo rfl (by decide) (by decide)

/-- Claim C2: when the requested platform is "all" or does not occur in the
resolved platform list, the full configuration list is passed to the
compiler factory unchanged, and the launch still succeeds. -/
theorem passthrough_full_config (opts : Opts) (env : Env)
    (hex : env.configExists = true)
    (h : opts.platform = "all" ∨ opts.platform ∉ env.platforms) :
    ∃ trace,
      startTrace opts env = Except.ok trace ∧
      Effect.compile (ConfigSel.full env.configs) ∈ trace := by
  have hneg : ¬(opts.platform ≠ "all" ∧ opts.platform ∈ env.platforms) := by
    rcases h with h | h
    · exact fun hc => hc.1 h
    · exact fun hc => h hc.2
  have hsel := selectConfig_neg env.aligned hneg
  exact ⟨successTrace opts env, startTrace_ok_of_exists hex,
    by simp [successTrace, hsel]⟩

/-- Claim C2 witness: with platform "all", the two-element configuration
list reaches the compiler unchanged. -/
theorem passthrough_full_config_witness :
    ∃ trace,
      startTrace optsAll envTwo = Except.ok trace ∧
      Effect.compile (ConfigSel.full envTwo.configs) ∈ trace :=
  passthrough_full_config optsAll envTwo rfl (Or.inl rfl)

/-- Claim C3: when `webpack.haul.js` is absent from the working directory,
the launch throws a message-carrying error whose message embeds the
missing path, and no effect trace (compiler instantiation, server
creation, listen) is ever produced. -/
theorem missing_config_fails_fast (opts : Opts) (env : Env)
    (hex : env.configExists = false) :
    startTrace opts env = Except.error ⟨webpackConfigNotFound env.cwd⟩ ∧
    (∃ pre, webpackConfigNotFound env.cwd =
      pre ++ pathJoin env.cwd "webpack.haul.js") ∧
    ∀ trace, startTrace opts env ≠ Except.ok trace := by
  refine ⟨?_, ⟨"Couldn't find configuration file ", rfl⟩, ?_⟩
  · simp [startTrace, hex]
  · intro trace h
    simp [startTrace, hex] at h

/-- Claim C3 witness: the sample environment with the configuration file
missing fails with the configuration-not-found error. -/
theorem missing_config_fails_fast_witness :
    startTrace optsIos envMissing =
      Except.error ⟨webpackConfigNotFound envMissing.cwd⟩ ∧
    (∃ pre, webpackConfigNotFound envMissing.cwd =
      pre ++ pathJoin envMissing.cwd "webpack.haul.js") ∧
    ∀ trace, startTrace optsIos envMissing ≠ Except.ok trace :=
  missing_config_fails_fast optsIos envMissing rfl

/-- Claim C4: whatever the outcome of the adb port-forward command, the
launch succeeds and reaches the listen step on (port, host); a failure is
reported only as a warning (no success log) and never propagates. -/
theorem device_forward_failure_nonfatal (opts : Opts) (env : Env)
    (hex : env.configExists = true) :
    ∃ trace,
      startTrace opts env = Except.ok trace ∧
      Effect.listen opts.port opts.host ∈ trace ∧
      (env.execFails = true → opts.platform = "android" →
        Effect.warnCommandFailed
          (baseName (adbBinary env.androidHome) ++ " " ++ adbArgs opts.port)
          ∈ trace) ∧
      (env.execFails = true →
        ∀ cmd, Effect.infoCommandSuccess cmd ∉ trace) := by
  refine ⟨successTrace opts env, startTrace_ok_of_exists hex, ?_, ?_, ?_⟩
  · simp [successTrace]
  · intro hf hand
    simp [successTrace, androidEffects, hand, hf]
  · intro hf cmd hmem
    simp [successTrace] at hmem
    exact info_not_mem_androidEffects opts env hf cmd hmem

/-- Claim C4 witness: android options against an environment where adb
fails still listen on (8081, 127.0.0.1) and log only a warning. -/
theorem device_forward_failure_nonfatal_witness :
    ∃ trace,
      startTrace optsAndroid envTwoFails = Except.ok trace ∧
      Effect.listen optsAndroid.port optsAndroid.host ∈ trace ∧
      (envTwoFails.execFails = true → optsAndroid.platform = "android" →
        Effect.warnCommandFailed
          (baseName (adbBinary envTwoFails.androidHome) ++ " " ++
            adbArgs optsAndroid.port) ∈ trace) ∧
      (envTwoFails.execFails = true →
        ∀ cmd, Effect.infoCommandSuccess cmd ∉ trace) :=
  device_forward_failure_nonfatal optsAndroid envTwoFails rfl

/-- Claim C5: on the android platform, the executed device-forward command
is the resolved adb binary followed by exactly
`reverse tcp:P tcp:P` for the configured port P. -/
theorem android_adb_command_string (opts : Opts) (env : Env)
    (hex : env.configExists = true) (hand : opts.platform = "android") :
    ∃ trace,
      startTrace opts env = Except.ok trace ∧
      Effect.execCmd (adbBinary env.androidHome ++ " " ++
        ("reverse tcp:" ++ toString opts.port ++ " tcp:" ++
          toString opts.port)) ∈ trace := by
  refine ⟨successTrace opts env, startTrace_ok_of_exists hex, ?_⟩
  simp [successTrace, androidEffects, hand, adbArgs]

/-- Claim C5 witness: with port 8081 and no ANDROID_HOME, the command
executed is adb reverse tcp:8081 tcp:8081. -/
theorem android_adb_command_string_witness :
    (∃ trace,
      startTrace optsAndroid envTwo = Except.ok trace ∧
      Effect.execCmd (adbBinary envTwo.androidHome ++ " " ++
        ("reverse tcp:" ++ toString optsAndroid.port ++ " tcp:" ++
          toString optsAndroid.port)) ∈ trace) ∧
    adbBinary envTwo.androidHome ++ " " ++
      ("reverse tcp:" ++ toString optsAndroid.port ++ " tcp:" ++
        toString optsAndroid.port) = "adb reverse tcp:8081 tcp:8081" :=
  ⟨android_adb_command_string optsAndroid envTwo rfl rfl, by decide⟩

/-- Claim C7: the listen callback logs a summary carrying the host, the
port and the entry points: the entry fields mapped across the full
configuration list when the full list was kept, otherwise the singleton
entry of the selected configuration. -/
theorem listen_summary_entries (opts : Opts) (env : Env)
    (hex : env.configExists = true) :
    ∃ trace entries,
      startTrace opts env = Except.ok trace ∧
      Effect.summary entries opts.host opts.port ∈ trace ∧
      (opts.platform = "all" ∨ opts.platform ∉ env.platforms →
        entries = env.configs.map Cfg.entry) ∧
      (opts.platform ≠ "all" → opts.platform ∈ env.platforms →
        ∃ c, env.configs[env.platforms.indexOf opts.platform]? = some c ∧
          entries = [c.entry]) := by
  refine ⟨successTrace opts env,
    summaryEntries (selectConfig opts.platform env.configs env.platforms
      env.aligned),
    startTrace_ok_of_exists hex, ?_, ?_, ?_⟩
  · simp [successTrace]
  · intro h
    have hneg : ¬(opts.platform ≠ "all" ∧ opts.platform ∈ env.platforms) := by
      rcases h with h | h
      · exact fun hc => hc.1 h
      · exact fun hc => h hc.2
    rw [selectConfig_neg env.aligned hneg]
    rfl
  · intro hall hmem
    have hidx : env.platforms.indexOf opts.platform < env.configs.length := by
      rw [env.aligned]
      exact List.indexOf_lt_length.mpr hmem
    rw [selectConfig_pos env.aligned hall hmem hidx]
    exact ⟨env.configs.get ⟨env.platforms.indexOf opts.platform, hidx⟩,
      by rw [List.getElem?_eq_getElem hidx, List.get_eq_getElem], rfl⟩

/-- Claim C7 witness: in "all" mode with two configurations the summary
lists both entry points. -/
theorem listen_summary_entries_witness :
    (∃ trace entries,
      startTrace optsAll envTwo = Except.ok trace ∧
      Effect.summary entries optsAll.host optsAll.port ∈ trace ∧
      (optsAll.platform = "all" ∨ optsAll.platform ∉ envTwo.platforms →
        entries = envTwo.configs.map Cfg.entry) ∧
      (optsAll.platform ≠ "all" → optsAll.platform ∈ envTwo.platforms →
        ∃ c, envTwo.configs[envTwo.platforms.indexOf optsAll.platform]? =
            some c ∧
          entries = [c.entry])) ∧
    (envTwo.configs.map Cfg.entry).length = 2 :=
  ⟨listen_summary_entries optsAll envTwo rfl, by decide⟩

/-- Claim C10: the device port-forward command runs only for the android
platform; for any other request, including "all", no external command is
executed at all. -/
theorem no_device_forward_unless_android (opts : Opts) (env : Env)
    (hex : env.configExists = true) (hno : opts.platform ≠ "android") :
    ∃ trace,
      startTrace opts env = Except.ok trace ∧
      ∀ cmd, Effect.execCmd cmd ∉ trace := by
  refine ⟨successTrace opts env, startTrace_ok_of_exists hex, ?_⟩
  intro cmd hc
  simp [successTrace, androidEffects, hno] at hc

/-- Claim C10 witness: in "all" mode no external command is executed. -/
theorem no_device_forward_unless_android_witness :
    ∃ trace,
      startTrace optsAll envTwo = Except.ok trace ∧
      ∀ cmd, Effect.execCmd cmd ∉ trace :=
  no_device_forward_unless_android optsAll envTwo rfl (by decide)

/-- Claim C6: the default of --minify is the string form of the negated
dev flag: "false" for dev=true, "true" for dev=false, and it always
parses back to the negation of dev. -/
theorem minify_default_negates_dev :
    minifyDefault true = "false" ∧ minifyDefault false = "true" ∧
    ∀ dev : Bool, parseBoolOption (minifyDefault dev) = !dev := by
  decide

/-- Claim C8: the build-completion callback first clears the screen, then
logs an error-level message exactly when the stats report errors, and
otherwise a success message carrying the stats and the requested
platform. -/
theorem build_complete_logging (stats : Stats) (platform : String) :
    (onBuildComplete platform stats).head? = some CbEffect.clearScreen ∧
    (CbEffect.errorBundleFailed ∈ onBuildComplete platform stats ↔
      stats.hasErrorsFlag = true) ∧
    (CbEffect.doneBundleBuilt stats platform ∈ onBuildComplete platform stats ↔
      stats.hasErrorsFlag = false) := by
  cases h : stats.hasErrorsFlag <;> simp [onBuildComplete, h]

/-- Claim C9: the parser shared by the dev and minify options yields
true exactly when the
supplied string differs from "false"; in particular "0", "no", "False"
and the empty string all parse to true. -/
theorem bool_option_parsing (val : String) :
    (parseBoolOption val = true ↔ val ≠ "false") ∧
    parseBoolOption "0" = true ∧ parseBoolOption "no" = true ∧
    parseBoolOption "False" = true ∧ parseBoolOption "" = true ∧
    parseBoolOption "false" = false := by
  refine ⟨?_, by decide, by decide, by decide, by decide, by decide⟩
  simp [parseBoolOption]

end Haul
